import Mathlib

/-!
Verification of the lesson-scheduling core of the teacher-scheduler bot.

The embedding models `services.py` (`LessonService`, `NotificationService`)
and the two `bot.py` callback handlers the claims reference
(`confirm_cancel_lesson`, `decline_reschedule`).

Modelling choices:
* the lessons table is a `List Lesson` in insertion order; SQLAlchemy's
  `.first()` is `List.head?` / `List.find?`, `.filter(...)` is `List.filter`;
* calendar dates and times-of-day are `Nat` (days, resp. minutes; both Python
  `date` and `time` are totally ordered values and the code only compares
  them for equality and order);
* `datetime.now().date()` is an explicit `today : Nat` parameter;
* Python truthiness of `Optional[int]` arguments (`if exclude_lesson_id:`)
  is `optTruthy`: `None` and `0` are both falsy;
* the autoincrement primary key is `nextId`, one more than the largest id
  in the table; a fresh id as in the database;
* mutating the ORM object returned by `.first()` and committing is
  `updateTimeFirst` / `eraseFirst`: only the first row matching the id is
  written / deleted.
-/

namespace TeacherScheduler

/-- A row of the `lessons` table (`models.py`, class `Lesson`). -/
structure Lesson where
  id : Nat
  date : Nat
  time : Nat
  teacher_id : Nat
  student_id : Nat
deriving DecidableEq, Repr

/-- A row of the `teachers` table, the fields the claims need. -/
structure Teacher where
  id : Nat
  name : String
  telegram_id : Nat
deriving DecidableEq, Repr

/-- A row of the `students` table, the fields the claims need
(`telegram_id` is nullable). -/
structure Student where
  id : Nat
  name : String
  teacher_id : Nat
  telegram_id : Option Nat
deriving DecidableEq, Repr

/-- Python truthiness of an `Optional[int]`: `None` and `0` are falsy. -/
def optTruthy : Option Nat → Bool
  | none => false
  | some n => n != 0

/-- The integer carried by the optional exclusion argument. -/
def excludeId (ex : Option Nat) : Nat := ex.getD 0

/-- The teacher-side slot filter of `check_time_conflict`:
`Lesson.teacher_id == teacher_id, Lesson.date == lesson_date, Lesson.time == lesson_time`. -/
def teacherFilter (teacher_id lesson_date lesson_time : Nat) (l : Lesson) : Bool :=
  l.teacher_id == teacher_id && l.date == lesson_date && l.time == lesson_time

/-- The student-side slot filter of `check_time_conflict`. -/
def studentFilter (student_id lesson_date lesson_time : Nat) (l : Lesson) : Bool :=
  l.student_id == student_id && l.date == lesson_date && l.time == lesson_time

/-- The `if exclude_lesson_id:` refinement of both queries: only applied when
the argument is truthy, and then it keeps rows with `Lesson.id != exclude_lesson_id`. -/
def applyExclude (ex : Option Nat) (q : List Lesson) : List Lesson :=
  if optTruthy ex then q.filter (fun l => l.id != excludeId ex) else q

/-- Whether a row survives the exclusion refinement. -/
def survivesEx (ex : Option Nat) (l : Lesson) : Bool :=
  if optTruthy ex then l.id != excludeId ex else true

/-- `LessonService.check_time_conflict` (`services.py` lines 14-39). -/
def check_time_conflict (lessons : List Lesson) (teacher_id student_id : Nat)
    (lesson_date lesson_time : Nat) (exclude_lesson_id : Option Nat) : Bool × String :=
  let query_teacher := applyExclude exclude_lesson_id
    (lessons.filter (teacherFilter teacher_id lesson_date lesson_time))
  let query_student := applyExclude exclude_lesson_id
    (lessons.filter (studentFilter student_id lesson_date lesson_time))
  if query_teacher.head?.isSome then
    (false, "The teacher already has a lesson scheduled at this time")
  else if query_student.head?.isSome then
    (false, "The student already has a lesson scheduled at this time")
  else
    (true, "")

/-- The autoincrement primary key: a fresh id, larger than every id in the table. -/
def nextId (lessons : List Lesson) : Nat :=
  (lessons.map Lesson.id).foldr Nat.max 0 + 1

/-- `LessonService.create_lesson` (`services.py` lines 41-64); returns the
Python return triple together with the table after the call. -/
def create_lesson (today : Nat) (lessons : List Lesson)
    (teacher_id student_id lesson_date lesson_time : Nat) :
    (Bool × String × Option Lesson) × List Lesson :=
  if lesson_date < today then
    ((false, "Cannot schedule a lesson for a past date", none), lessons)
  else
    let chk := check_time_conflict lessons teacher_id student_id lesson_date lesson_time none
    if !chk.1 then
      ((false, chk.2, none), lessons)
    else
      let lesson : Lesson := ⟨nextId lessons, lesson_date, lesson_time, teacher_id, student_id⟩
      ((true, "Lesson created successfully", some lesson), lessons ++ [lesson])

/-- `session.query(Lesson).filter_by(id=lesson_id).first()`. -/
def find_lesson (lessons : List Lesson) (lesson_id : Nat) : Option Lesson :=
  lessons.find? (fun l => l.id == lesson_id)

/-- Overwrite the `time` field of a lesson row (`lesson.time = new_time`). -/
def setTime (l : Lesson) (new_time : Nat) : Lesson :=
  ⟨l.id, l.date, new_time, l.teacher_id, l.student_id⟩

/-- Commit of the in-place `lesson.time = new_time` on the row returned by
`.first()`: only the first row with the id is written. -/
def updateTimeFirst : List Lesson → Nat → Nat → List Lesson
  | [], _, _ => []
  | l :: ls, lesson_id, new_time =>
    if l.id == lesson_id then setTime l new_time :: ls
    else l :: updateTimeFirst ls lesson_id new_time

/-- `session.delete` of the row returned by `.first()`: the first row with
the id is removed. -/
def eraseFirst : List Lesson → Nat → List Lesson
  | [], _ => []
  | l :: ls, lesson_id => if l.id == lesson_id then ls else l :: eraseFirst ls lesson_id

/-- `LessonService.reschedule_lesson` (`services.py` lines 66-86). -/
def reschedule_lesson (today : Nat) (lessons : List Lesson)
    (lesson_id new_time : Nat) : (Bool × String) × List Lesson :=
  match find_lesson lessons lesson_id with
  | none => ((false, "Lesson not found"), lessons)
  | some lesson =>
    if lesson.date < today then
      ((false, "Cannot reschedule a lesson in the past"), lessons)
    else
      let chk := check_time_conflict lessons lesson.teacher_id lesson.student_id
        lesson.date new_time (some lesson_id)
      if !chk.1 then
        ((false, chk.2), lessons)
      else
        ((true, "Lesson rescheduled successfully"), updateTimeFirst lessons lesson_id new_time)

/-- `LessonService.cancel_lesson` (`services.py` lines 88-99); the returned
`Option Lesson` is the value-level content of `lesson_copy`. -/
def cancel_lesson (lessons : List Lesson) (lesson_id : Nat) :
    (Bool × String × Option Lesson) × List Lesson :=
  match find_lesson lessons lesson_id with
  | none => ((false, "Lesson not found", none), lessons)
  | some lesson => ((true, "Lesson cancelled", some lesson), eraseFirst lessons lesson_id)

/-- Two lesson rows occupy different slots: they share neither the
`(teacher_id, date, time)` triple nor the `(student_id, date, time)` triple. -/
def noShare (a b : Lesson) : Prop :=
  ¬(a.teacher_id = b.teacher_id ∧ a.date = b.date ∧ a.time = b.time) ∧
  ¬(a.student_id = b.student_id ∧ a.date = b.date ∧ a.time = b.time)

instance noShare.instDecidable (a b : Lesson) : Decidable (noShare a b) := by
  unfold noShare; infer_instance

/-- The spec's slot-uniqueness invariant: no two distinct rows of the table
share a teacher slot or a student slot. -/
def slotUnique (lessons : List Lesson) : Prop :=
  lessons.Pairwise noShare

instance slotUnique.instDecidable (lessons : List Lesson) : Decidable (slotUnique lessons) := by
  unfold slotUnique
  infer_instance

/-- Facts the database layer guarantees about the `lessons` table: `id` is an
autoincrement primary key, so ids are pairwise distinct and strictly positive. -/
def wellFormed (lessons : List Lesson) : Prop :=
  (lessons.map Lesson.id).Nodup ∧ ∀ l ∈ lessons, 0 < l.id

instance wellFormed.instDecidable (lessons : List Lesson) : Decidable (wellFormed lessons) := by
  unfold wellFormed
  infer_instance

/-- One mutation request against the scheduling service. -/
inductive Op where
  | create (teacher_id student_id lesson_date lesson_time : Nat)
  | reschedule (lesson_id new_time : Nat)

/-- The table after serving one request (failed requests leave it unchanged). -/
def applyOp (today : Nat) (lessons : List Lesson) : Op → List Lesson
  | .create tid sid d t => (create_lesson today lessons tid sid d t).2
  | .reschedule lid nt => (reschedule_lesson today lessons lid nt).2

/-- The table after serving a sequence of requests. -/
def runOps (today : Nat) (lessons : List Lesson) (ops : List Op) : List Lesson :=
  ops.foldl (applyOp today) lessons

/-- `time.strftime` padding of one numeric field to two digits. -/
def pad2 (n : Nat) : String :=
  if n < 10 then "0" ++ toString n else toString n

/-- `lesson_time.strftime('%H:%M')` on a time-of-day in minutes. -/
def formatTimeHM (t : Nat) : String :=
  pad2 (t / 60) ++ ":" ++ pad2 (t % 60)

/-- The message text built by `NotificationService.notify_student_reschedule_result`
(`services.py` lines 156-174): the accepted branch interpolates the date and the
new time, the declined branch interpolates only the teacher's name. -/
def rescheduleResultText (teacher_name : String) (lesson_date new_time : Nat)
    (accepted : Bool) : String :=
  if accepted then
    "Your lesson with " ++ teacher_name ++ " has been rescheduled to "
      ++ toString lesson_date ++ " at " ++ formatTimeHM new_time ++ "."
  else
    "Your request to reschedule the lesson with " ++ teacher_name ++ " was declined."

/-- `NotificationService.notify_student_reschedule_result`: returns the Python
boolean result together with the message handed to `bot.send_message`
(`none` when no message is sent because `student.telegram_id` is falsy). -/
def notify_student_reschedule_result (student : Student) (teacher : Teacher)
    (lesson_date new_time : Nat) (accepted : Bool) : Bool × Option String :=
  if !optTruthy student.telegram_id then (false, none)
  else (true, some (rescheduleResultText teacher.name lesson_date new_time accepted))

/-- The `decline_reschedule` callback handler (`bot.py` lines 619-643): looks
the lesson up, and when it exists notifies the lesson's student, passing the
lesson's stored `date` and `time` and `accepted=False`; it performs no write,
so the table is returned unchanged. The first component is `none` when the
lesson is missing, otherwise the result of the notification call. -/
def decline_reschedule (lessons : List Lesson) (lesson_id : Nat)
    (student : Student) (teacher : Teacher) :
    Option (Bool × Option String) × List Lesson :=
  match find_lesson lessons lesson_id with
  | none => (none, lessons)
  | some lesson =>
    (some (notify_student_reschedule_result student teacher lesson.date lesson.time false),
     lessons)

/-- Whether `pat` is a prefix of the character list `s`. -/
def hasPrefixL : List Char → List Char → Bool
  | _, [] => true
  | [], _ :: _ => false
  | c :: cs, p :: ps => c == p && hasPrefixL cs ps

/-- Whether `pat` occurs somewhere in the character list `s`. -/
def hasSubL : List Char → List Char → Bool
  | [], pat => hasPrefixL [] pat
  | c :: rest, pat => hasPrefixL (c :: rest) pat || hasSubL rest pat

/-- Substring test: whether `pat` occurs in `s`. -/
def containsSub (s pat : String) : Bool :=
  hasSubL s.toList pat.toList

/-- State of a SQLAlchemy ORM `Lesson` instance as far as `cancel_lesson` and
its caller `confirm_cancel_lesson` exercise it: the loaded column values, which
lazy relationships have been loaded, and whether the instance is still attached
to a live session. A plain `filter_by(id=...).first()` query loads the columns
but neither relationship. -/
structure ORMLessonInstance where
  row : Lesson
  studentLoaded : Bool
  teacherLoaded : Bool
  attached : Bool
deriving DecidableEq, Repr

/-- `session.query(Lesson).filter_by(id=lesson_id).first()` as an ORM load:
columns present, `student`/`teacher` relationships not loaded, attached. -/
def loadLessonById (lessons : List Lesson) (lesson_id : Nat) : Option ORMLessonInstance :=
  (find_lesson lessons lesson_id).map (fun l => ⟨l, false, false, true⟩)

/-- Detachment of an instance, as happens to a deleted instance when
`session.commit()` expunges it from the session. -/
def detachInstance (inst : ORMLessonInstance) : ORMLessonInstance :=
  ⟨inst.row, inst.studentLoaded, inst.teacherLoaded, false⟩

/-- Lazy access to `lesson.student` under SQLAlchemy's documented rules: an
already-loaded relationship is served from the instance, an attached instance
lazy-loads from the session, and an unloaded relationship on a detached
instance raises `DetachedInstanceError`. On success it yields the related
student's id. -/
def lazyLoadStudent (inst : ORMLessonInstance) : Except String Nat :=
  if inst.studentLoaded then .ok inst.row.student_id
  else if inst.attached then .ok inst.row.student_id
  else .error "DetachedInstanceError"

/-- `LessonService.cancel_lesson` at the ORM-instance level: `lesson_copy = lesson`
aliases the loaded instance, `session.delete(lesson); session.commit()` deletes
the row and detaches that same instance, which is what the caller receives. -/
def cancel_lesson_orm (lessons : List Lesson) (lesson_id : Nat) :
    (Bool × String × Option ORMLessonInstance) × List Lesson :=
  match loadLessonById lessons lesson_id with
  | none => ((false, "Lesson not found", none), lessons)
  | some inst =>
    ((true, "Lesson cancelled", some (detachInstance inst)), eraseFirst lessons lesson_id)

/-- The `lesson.student` access performed by `confirm_cancel_lesson`
(`bot.py` lines 297-311) on the snapshot returned by a successful
`cancel_lesson`, after the deletion has been committed. -/
def confirm_cancel_student_access (lessons : List Lesson) (lesson_id : Nat) :
    Except String Nat :=
  match (cancel_lesson_orm lessons lesson_id).1.2.2 with
  | none => .error "no snapshot"
  | some inst => lazyLoadStudent inst

section Lemmas

/-- A list's `head?` is `some` exactly when the list has a member. -/
lemma head?_isSome_iff_exists (q : List Lesson) : q.head?.isSome = true ↔ ∃ l, l ∈ q := by
  cases q <;> simp

/-- The refined query is empty exactly when no row passes both the slot filter
and the exclusion refinement. -/
lemma applyExclude_filter_eq_nil {lessons : List Lesson} {p : Lesson → Bool} {ex : Option Nat} :
    applyExclude ex (lessons.filter p) = [] ↔
      ∀ l ∈ lessons, survivesEx ex l = true → p l = false := by
  unfold applyExclude survivesEx
  by_cases h : optTruthy ex = true
  · simp only [h, if_true, List.filter_eq_nil_iff, List.mem_filter]
    constructor
    · intro hall l hl hs
      by_cases hp : p l = true
      · have := hall l ⟨hl, hp⟩
        simp [hs] at this
      · simpa using hp
    · intro hall l hl hs
      have := hall l hl.1 hs
      simp [hl.2] at this
  · simp only [h, if_false, Bool.false_eq_true, List.filter_eq_nil_iff]
    constructor
    · intro hall l hl _
      have := hall l hl
      simpa using this
    · intro hall l hl
      have := hall l hl (by simp [h])
      simp [this]

/-- A nonempty list's `head?` is `some`. -/
lemma head?_isSome_of_ne_nil {q : List Lesson} (h : q ≠ []) : q.head?.isSome = true := by
  cases q with
  | nil => exact absurd rfl h
  | cons a as => rfl

/-- Normal form of `check_time_conflict`: a two-way case split on the emptiness
of the two refined queries. -/
lemma check_fst_eq (lessons : List Lesson) (tid sid d t : Nat) (ex : Option Nat) :
    check_time_conflict lessons tid sid d t ex =
      (if applyExclude ex (lessons.filter (teacherFilter tid d t)) = [] then
        (if applyExclude ex (lessons.filter (studentFilter sid d t)) = [] then (true, "")
         else (false, "The student already has a lesson scheduled at this time"))
       else (false, "The teacher already has a lesson scheduled at this time")) := by
  simp only [check_time_conflict]
  by_cases hT : applyExclude ex (lessons.filter (teacherFilter tid d t)) = []
  · by_cases hS : applyExclude ex (lessons.filter (studentFilter sid d t)) = []
    · simp [hT, hS]
    · simp [hT, hS, head?_isSome_of_ne_nil hS]
  · simp [hT, head?_isSome_of_ne_nil hT]

/-- `check_time_conflict` passes exactly when no surviving row matches the
teacher filter and none matches the student filter. -/
lemma check_fst_true_iff (lessons : List Lesson) (tid sid d t : Nat) (ex : Option Nat) :
    (check_time_conflict lessons tid sid d t ex).1 = true ↔
      (∀ l ∈ lessons, survivesEx ex l = true → teacherFilter tid d t l = false) ∧
      (∀ l ∈ lessons, survivesEx ex l = true → studentFilter sid d t l = false) := by
  rw [check_fst_eq]
  by_cases hT : applyExclude ex (lessons.filter (teacherFilter tid d t)) = []
  · by_cases hS : applyExclude ex (lessons.filter (studentFilter sid d t)) = []
    · rw [if_pos hT, if_pos hS]
      constructor
      · intro _
        exact ⟨applyExclude_filter_eq_nil.1 hT, applyExclude_filter_eq_nil.1 hS⟩
      · intro _
        rfl
    · rw [if_pos hT, if_neg hS]
      constructor
      · intro h
        simp at h
      · rintro ⟨h1, h2⟩
        exact (hS (applyExclude_filter_eq_nil.2 h2)).elim
  · rw [if_neg hT]
    constructor
    · intro h
      simp at h
    · rintro ⟨h1, h2⟩
      exact (hT (applyExclude_filter_eq_nil.2 h1)).elim

/-- The teacher filter, at the propositional level. -/
lemma teacherFilter_true_iff {tid d t : Nat} {l : Lesson} :
    teacherFilter tid d t l = true ↔ l.teacher_id = tid ∧ l.date = d ∧ l.time = t := by
  simp [teacherFilter, and_assoc]

/-- The student filter, at the propositional level. -/
lemma studentFilter_true_iff {sid d t : Nat} {l : Lesson} :
    studentFilter sid d t l = true ↔ l.student_id = sid ∧ l.date = d ∧ l.time = t := by
  simp [studentFilter, and_assoc]

/-- Without an exclusion id every row survives the refinement. -/
lemma survivesEx_none (l : Lesson) : survivesEx none l = true := rfl

/-- With a nonzero exclusion id a row survives exactly when its id differs. -/
lemma survivesEx_some {lid : Nat} (hlid : lid ≠ 0) {l : Lesson} (h : l.id ≠ lid) :
    survivesEx (some lid) l = true := by
  simp [survivesEx, optTruthy, excludeId, hlid, h]

/-- `noShare` is symmetric. -/
lemma noShare_symm : ∀ {a b : Lesson}, noShare a b → noShare b a := by
  rintro a b ⟨h1, h2⟩
  exact ⟨fun hc => h1 ⟨hc.1.symm, hc.2.1.symm, hc.2.2.symm⟩,
         fun hc => h2 ⟨hc.1.symm, hc.2.1.symm, hc.2.2.symm⟩⟩

/-- Every member of a list is bounded by the fold of `Nat.max`. -/
lemma le_foldr_max {n : Nat} {ns : List Nat} (h : n ∈ ns) : n ≤ ns.foldr Nat.max 0 := by
  induction ns with
  | nil => cases h
  | cons m ms ih =>
    rcases List.mem_cons.1 h with rfl | hm
    · exact Nat.le_max_left _ _
    · exact Nat.le_trans (ih hm) (Nat.le_max_right _ _)

/-- The autoincrement id is strictly larger than every id in the table. -/
lemma id_lt_nextId {l : Lesson} {lessons : List Lesson} (h : l ∈ lessons) :
    l.id < nextId lessons :=
  Nat.lt_succ_of_le (le_foldr_max (List.mem_map_of_mem _ h))

/-- `create_lesson` preserves the primary-key facts and slot uniqueness. -/
lemma create_preserves (today tid sid d t : Nat) (s : List Lesson)
    (hwf : wellFormed s) (hsu : slotUnique s) :
    wellFormed (create_lesson today s tid sid d t).2 ∧
      slotUnique (create_lesson today s tid sid d t).2 := by
  unfold create_lesson
  by_cases hd : d < today
  · simpa [hd] using ⟨hwf, hsu⟩
  · by_cases hv : (check_time_conflict s tid sid d t none).1 = true
    · obtain ⟨hTall, hSall⟩ := (check_fst_true_iff s tid sid d t none).1 hv
      simp only [hd, if_false, hv, Bool.not_true, Bool.false_eq_true]
      refine ⟨⟨?_, ?_⟩, ?_⟩
      · simp only [List.map_append, List.map_cons, List.map_nil, List.nodup_append]
        refine ⟨hwf.1, List.nodup_singleton _, ?_⟩
        intro m hm hm1
        simp only [List.mem_singleton] at hm1
        obtain ⟨x, hx, hxid⟩ := List.mem_map.1 hm
        have hlt := id_lt_nextId hx
        omega
      · intro l hl
        rcases List.mem_append.1 hl with h1 | h2
        · exact hwf.2 l h1
        · simp only [List.mem_singleton] at h2
          subst h2
          exact Nat.succ_pos _
      · simp only [slotUnique, List.pairwise_append] at hsu ⊢
        refine ⟨hsu, List.pairwise_singleton _ _, ?_⟩
        intro a ha b hb
        simp only [List.mem_singleton] at hb
        subst hb
        constructor
        · rintro ⟨e1, e2, e3⟩
          have hft : teacherFilter tid d t a = true := teacherFilter_true_iff.2 ⟨e1, e2, e3⟩
          rw [hTall a ha (survivesEx_none a)] at hft
          exact Bool.false_ne_true hft
        · rintro ⟨e1, e2, e3⟩
          have hfs : studentFilter sid d t a = true := studentFilter_true_iff.2 ⟨e1, e2, e3⟩
          rw [hSall a ha (survivesEx_none a)] at hfs
          exact Bool.false_ne_true hfs
    · have hv' : (check_time_conflict s tid sid d t none).1 = false := by
        cases hb : (check_time_conflict s tid sid d t none).1
        · rfl
        · exact absurd hb hv
      simpa [hd, hv'] using ⟨hwf, hsu⟩

/-- Rewriting a time in place does not change the id column. -/
lemma updateTimeFirst_map_id (s : List Lesson) (lid nt : Nat) :
    (updateTimeFirst s lid nt).map Lesson.id = s.map Lesson.id := by
  induction s with
  | nil => rfl
  | cons l ls ih =>
    by_cases h : l.id = lid
    · simp [updateTimeFirst, h, setTime]
    · simp [updateTimeFirst, h, ih]

/-- Every row after the in-place update keeps an id from the old table. -/
lemma mem_updateTimeFirst {s : List Lesson} {lid nt : Nat} {x : Lesson}
    (h : x ∈ updateTimeFirst s lid nt) : ∃ y ∈ s, x.id = y.id := by
  induction s with
  | nil => simp [updateTimeFirst] at h
  | cons l ls ih =>
    by_cases hl : l.id = lid
    · simp only [updateTimeFirst, hl, beq_self_eq_true, if_true] at h
      rcases List.mem_cons.1 h with rfl | hx
      · exact ⟨l, List.mem_cons_self _ _, rfl⟩
      · exact ⟨x, List.mem_cons_of_mem _ hx, rfl⟩
    · rw [updateTimeFirst, if_neg (by simp [hl])] at h
      rcases List.mem_cons.1 h with rfl | hx
      · exact ⟨x, List.mem_cons_self _ _, rfl⟩
      · obtain ⟨y, hy, hxy⟩ := ih hx
        exact ⟨y, List.mem_cons_of_mem _ hy, hxy⟩

/-- Decomposition of the table around the row `filter_by(id=...).first()`
returns, together with the effect of the in-place time update and of the
delete on that decomposition. -/
lemma find_decomp {s : List Lesson} {lid : Nat} {L : Lesson}
    (h : find_lesson s lid = some L) (nt : Nat) :
    ∃ pre post, s = pre ++ L :: post ∧ (∀ p ∈ pre, p.id ≠ lid) ∧ L.id = lid ∧
      updateTimeFirst s lid nt = pre ++ setTime L nt :: post ∧
      eraseFirst s lid = pre ++ post := by
  induction s with
  | nil => simp [find_lesson] at h
  | cons l ls ih =>
    by_cases hl : l.id = lid
    · have hfind : find_lesson (l :: ls) lid = some l := by
        unfold find_lesson
        exact List.find?_cons_of_pos _ (by simp [hl])
      rw [hfind] at h
      injection h with hh
      subst hh
      exact ⟨[], ls, by simp, by simp, hl, by simp [updateTimeFirst, hl],
        by simp [eraseFirst, hl]⟩
    · have hfind : find_lesson (l :: ls) lid = find_lesson ls lid := by
        unfold find_lesson
        rw [List.find?_cons_of_neg]
        simp [hl]
      rw [hfind] at h
      obtain ⟨pre, post, h1, h2, h3, h4, h5⟩ := ih h
      refine ⟨l :: pre, post, by simp [h1], ?_, h3,
        by simp [updateTimeFirst, hl, h4], by simp [eraseFirst, hl, h5]⟩
      intro p hp
      rcases List.mem_cons.1 hp with rfl | hp'
      · exact hl
      · exact h2 p hp'

/-- `reschedule_lesson` preserves the primary-key facts and slot uniqueness. -/
lemma reschedule_preserves (today lid nt : Nat) (s : List Lesson)
    (hwf : wellFormed s) (hsu : slotUnique s) :
    wellFormed (reschedule_lesson today s lid nt).2 ∧
      slotUnique (reschedule_lesson today s lid nt).2 := by
  unfold reschedule_lesson
  cases hf : find_lesson s lid with
  | none => simpa using ⟨hwf, hsu⟩
  | some L =>
    by_cases hd : L.date < today
    · simpa [hd] using ⟨hwf, hsu⟩
    · by_cases hv :
        (check_time_conflict s L.teacher_id L.student_id L.date nt (some lid)).1 = true
      · obtain ⟨hTall, hSall⟩ := (check_fst_true_iff s L.teacher_id L.student_id
          L.date nt (some lid)).1 hv
        simp only [hd, if_false, hv, Bool.not_true, Bool.false_eq_true]
        obtain ⟨pre, post, hs, hpre, hLid, hupd, _⟩ := find_decomp hf nt
        refine ⟨⟨?_, ?_⟩, ?_⟩
        · rw [updateTimeFirst_map_id]
          exact hwf.1
        · intro x hx
          obtain ⟨y, hy, hxy⟩ := mem_updateTimeFirst hx
          rw [hxy]
          exact hwf.2 y hy
        · have hLmem : L ∈ s := by
            rw [hs]
            simp
          have hlid0 : lid ≠ 0 := by
            have := hwf.2 L hLmem
            omega
          have hnodup := hwf.1
          rw [hs] at hnodup
          simp only [List.map_append, List.map_cons, List.nodup_append,
            List.nodup_cons] at hnodup
          have hpost : ∀ b ∈ post, b.id ≠ lid := by
            intro b hb hbid
            apply hnodup.2.1.1
            have hmem : b.id ∈ post.map Lesson.id := List.mem_map_of_mem _ hb
            rw [hbid, ← hLid] at hmem
            exact hmem
          have hsu' := hsu
          rw [slotUnique, hs] at hsu'
          rw [hupd]
          simp only [slotUnique, List.pairwise_append, List.pairwise_cons] at hsu' ⊢
          obtain ⟨hPre, ⟨hLpost, hPost⟩, hCross⟩ := hsu'
          refine ⟨hPre, ⟨?_, hPost⟩, ?_⟩
          · intro b hb
            have hbid := hpost b hb
            have hbmem : b ∈ s := by
              rw [hs]
              simp [hb]
            have hTb := hTall b hbmem (survivesEx_some hlid0 hbid)
            have hSb := hSall b hbmem (survivesEx_some hlid0 hbid)
            constructor
            · rintro ⟨e1, e2, e3⟩
              have hft : teacherFilter L.teacher_id L.date nt b = true :=
                teacherFilter_true_iff.2 ⟨e1.symm, e2.symm, e3.symm⟩
              rw [hTb] at hft
              exact Bool.false_ne_true hft
            · rintro ⟨e1, e2, e3⟩
              have hfs : studentFilter L.student_id L.date nt b = true :=
                studentFilter_true_iff.2 ⟨e1.symm, e2.symm, e3.symm⟩
              rw [hSb] at hfs
              exact Bool.false_ne_true hfs
          · intro a ha b hb
            rcases List.mem_cons.1 hb with rfl | hb'
            · have haid := hpre a ha
              have hamem : a ∈ s := by
                rw [hs]
                simp [ha]
              have hTa := hTall a hamem (survivesEx_some hlid0 haid)
              have hSa := hSall a hamem (survivesEx_some hlid0 haid)
              constructor
              · rintro ⟨e1, e2, e3⟩
                have hft : teacherFilter L.teacher_id L.date nt a = true :=
                  teacherFilter_true_iff.2 ⟨e1, e2, e3⟩
                rw [hTa] at hft
                exact Bool.false_ne_true hft
              · rintro ⟨e1, e2, e3⟩
                have hfs : studentFilter L.student_id L.date nt a = true :=
                  studentFilter_true_iff.2 ⟨e1, e2, e3⟩
                rw [hSa] at hfs
                exact Bool.false_ne_true hfs
            · exact hCross a ha b (List.mem_cons_of_mem _ hb')
      · have hv' :
          (check_time_conflict s L.teacher_id L.student_id L.date nt (some lid)).1 = false := by
          cases hb :
            (check_time_conflict s L.teacher_id L.student_id L.date nt (some lid)).1
          · rfl
          · exact absurd hb hv
        simpa [hd, hv'] using ⟨hwf, hsu⟩

/-- One served request preserves the primary-key facts and slot uniqueness. -/
lemma applyOp_preserves (today : Nat) (op : Op) (s : List Lesson)
    (hwf : wellFormed s) (hsu : slotUnique s) :
    wellFormed (applyOp today s op) ∧ slotUnique (applyOp today s op) := by
  cases op with
  | create tid sid d t => exact create_preserves today tid sid d t s hwf hsu
  | reschedule lid nt => exact reschedule_preserves today lid nt s hwf hsu

/-- A whole sequence of served requests preserves both invariants. -/
lemma runOps_preserves (today : Nat) (ops : List Op) (s : List Lesson)
    (hwf : wellFormed s) (hsu : slotUnique s) :
    wellFormed (runOps today s ops) ∧ slotUnique (runOps today s ops) := by
  induction ops generalizing s with
  | nil => exact ⟨hwf, hsu⟩
  | cons op ops ih =>
    obtain ⟨hwf', hsu'⟩ := applyOp_preserves today op s hwf hsu
    exact ih _ hwf' hsu'

/-- A boolean that is not `true` is `false`. -/
lemma bool_eq_false {b : Bool} (h : ¬b = true) : b = false := by
  cases b
  · rfl
  · exact absurd rfl h

/-- Re-setting a lesson's time to its own time is the identity. -/
lemma setTime_self (L : Lesson) : setTime L L.time = L := rfl

/-- With pairwise-distinct ids, looking a member row up by its id finds
that row. -/
lemma find_lesson_of_mem {s : List Lesson} {L : Lesson}
    (hnodup : (s.map Lesson.id).Nodup) (hmem : L ∈ s) :
    find_lesson s L.id = some L := by
  induction s with
  | nil => cases hmem
  | cons l ls ih =>
    simp only [List.map_cons, List.nodup_cons] at hnodup
    rcases List.mem_cons.1 hmem with rfl | hm
    · unfold find_lesson
      exact List.find?_cons_of_pos _ (by simp)
    · have hne : l.id ≠ L.id := by
        intro he
        exact hnodup.1 (he ▸ List.mem_map_of_mem _ hm)
      unfold find_lesson
      rw [List.find?_cons_of_neg]
      · exact ih hnodup.2 hm
      · simp [hne]

/-- With pairwise-distinct ids, after deleting the first row with a given id
no row with that id remains. -/
lemma eraseFirst_no_id {s : List Lesson} {lid : Nat}
    (hnodup : (s.map Lesson.id).Nodup) :
    ∀ M ∈ eraseFirst s lid, M.id ≠ lid := by
  induction s with
  | nil =>
    intro M hM
    simp [eraseFirst] at hM
  | cons l ls ih =>
    simp only [List.map_cons, List.nodup_cons] at hnodup
    by_cases hl : l.id = lid
    · rw [eraseFirst, if_pos (by simp [hl])]
      intro M hM hMid
      have hmm : M.id ∈ ls.map Lesson.id := List.mem_map_of_mem _ hM
      rw [hMid, ← hl] at hmm
      exact hnodup.1 hmm
    · rw [eraseFirst, if_neg (by simp [hl])]
      intro M hM
      rcases List.mem_cons.1 hM with rfl | hM'
      · exact hl
      · exact ih hnodup.2 M hM'

/-- Evaluation of `reschedule_lesson` once the lookup has found a row. -/
lemma reschedule_eq_of_find_some (today nt : Nat) {s : List Lesson} {lid : Nat} {L : Lesson}
    (hf : find_lesson s lid = some L) :
    reschedule_lesson today s lid nt =
      (if L.date < today then ((false, "Cannot reschedule a lesson in the past"), s)
       else if (check_time_conflict s L.teacher_id L.student_id L.date nt (some lid)).1 then
         ((true, "Lesson rescheduled successfully"), updateTimeFirst s lid nt)
       else
         ((false, (check_time_conflict s L.teacher_id L.student_id L.date nt (some lid)).2),
           s)) := by
  unfold reschedule_lesson
  rw [hf]
  by_cases hd : L.date < today
  · simp [hd]
  · by_cases hv : (check_time_conflict s L.teacher_id L.student_id L.date nt (some lid)).1 = true
    · simp [hd, hv]
    · simp [hd, bool_eq_false hv]

end Lemmas

section Claims

/-- Claim C1: slot uniqueness / no double-booking. For every sequence of
`create_lesson` and `reschedule_lesson` calls starting from a table that
satisfies the invariant (and the database's primary-key facts: distinct,
positive ids), after every committed mutation no two distinct lessons share
the same `(teacher_id, date, time)` and no two share the same
`(student_id, date, time)`. Since the conclusion holds for every operation
sequence, it holds in particular after every prefix, i.e. after every
committed mutation. -/
theorem c1_no_double_booking (today : Nat) (s : List Lesson) (ops : List Op)
    (hwf : wellFormed s) (hsu : slotUnique s) :
    slotUnique (runOps today s ops) :=
  (runOps_preserves today ops s hwf hsu).2

/-- Witness for C1 at a concrete table and operation sequence. -/
theorem c1_no_double_booking_witness :
    wellFormed [⟨1, 10, 900, 1, 1⟩] ∧ slotUnique [⟨1, 10, 900, 1, 1⟩] ∧
      slotUnique (runOps 0 [⟨1, 10, 900, 1, 1⟩]
        [Op.create 1 2 10 900, Op.reschedule 1 960]) :=
  ⟨by decide, by decide,
    c1_no_double_booking 0 [⟨1, 10, 900, 1, 1⟩]
      [Op.create 1 2 10 900, Op.reschedule 1 960] (by decide) (by decide)⟩

/-- Claim C2: tie-break determinism of the conflict check. Whenever an
organizer-side (teacher) conflict exists among the rows surviving the
exclusion, `check_time_conflict` reports the teacher conflict — even if a
counterpart-side (student) conflict exists as well; the student conflict is
reported only when no teacher conflict exists. -/
theorem c2_tie_break (lessons : List Lesson) (tid sid d t : Nat) (ex : Option Nat) :
    ((∃ l ∈ lessons, teacherFilter tid d t l = true ∧ survivesEx ex l = true) →
      check_time_conflict lessons tid sid d t ex =
        (false, "The teacher already has a lesson scheduled at this time")) ∧
    ((¬∃ l ∈ lessons, teacherFilter tid d t l = true ∧ survivesEx ex l = true) →
      (∃ l ∈ lessons, studentFilter sid d t l = true ∧ survivesEx ex l = true) →
      check_time_conflict lessons tid sid d t ex =
        (false, "The student already has a lesson scheduled at this time")) := by
  rw [check_fst_eq]
  constructor
  · rintro ⟨l, hl, hf, hs⟩
    have hne : applyExclude ex (lessons.filter (teacherFilter tid d t)) ≠ [] := by
      intro hnil
      have hfalse := applyExclude_filter_eq_nil.1 hnil l hl hs
      rw [hf] at hfalse
      exact absurd hfalse (by decide)
    rw [if_neg hne]
  · rintro hno ⟨l, hl, hf, hs⟩
    have hTnil : applyExclude ex (lessons.filter (teacherFilter tid d t)) = [] := by
      rw [applyExclude_filter_eq_nil]
      intro m hm hms
      by_cases hmf : teacherFilter tid d t m = true
      · exact absurd ⟨m, hm, hmf, hms⟩ hno
      · exact bool_eq_false hmf
    have hSne : applyExclude ex (lessons.filter (studentFilter sid d t)) ≠ [] := by
      intro hnil
      have hfalse := applyExclude_filter_eq_nil.1 hnil l hl hs
      rw [hf] at hfalse
      exact absurd hfalse (by decide)
    rw [if_pos hTnil, if_neg hSne]

/-- Witness for C2: a state where both sides conflict reports the teacher
conflict; a state with only a student conflict reports the student conflict. -/
theorem c2_tie_break_witness :
    check_time_conflict [⟨1, 10, 900, 7, 3⟩] 7 3 10 900 none =
      (false, "The teacher already has a lesson scheduled at this time") ∧
    check_time_conflict [⟨1, 10, 900, 8, 3⟩] 7 3 10 900 none =
      (false, "The student already has a lesson scheduled at this time") :=
  ⟨(c2_tie_break [⟨1, 10, 900, 7, 3⟩] 7 3 10 900 none).1 (by decide),
   (c2_tie_break [⟨1, 10, 900, 8, 3⟩] 7 3 10 900 none).2 (by decide) (by decide)⟩

/-- Claim C3: `reschedule_lesson` fails with the not-found error when no
lesson carries the id, and fails with the past-lesson error when the found
lesson's stored date is before today, whatever the proposed new time; in both
cases the table is returned unchanged. -/
theorem c3_reschedule_errors (today : Nat) (lessons : List Lesson) (lid nt : Nat) :
    ((∀ l ∈ lessons, l.id ≠ lid) →
      reschedule_lesson today lessons lid nt = ((false, "Lesson not found"), lessons)) ∧
    (∀ L, find_lesson lessons lid = some L → L.date < today →
      reschedule_lesson today lessons lid nt =
        ((false, "Cannot reschedule a lesson in the past"), lessons)) := by
  constructor
  · intro h
    have hf : find_lesson lessons lid = none := by
      unfold find_lesson
      rw [List.find?_eq_none]
      intro l hl
      simp [h l hl]
    unfold reschedule_lesson
    rw [hf]
  · intro L hf hd
    unfold reschedule_lesson
    rw [hf]
    simp [hd]

/-- Witness for C3: a missing id and a past lesson at concrete inputs. -/
theorem c3_reschedule_errors_witness :
    reschedule_lesson 10 [⟨1, 5, 900, 1, 1⟩] 2 960 =
      ((false, "Lesson not found"), [⟨1, 5, 900, 1, 1⟩]) ∧
    reschedule_lesson 10 [⟨1, 5, 900, 1, 1⟩] 1 960 =
      ((false, "Cannot reschedule a lesson in the past"), [⟨1, 5, 900, 1, 1⟩]) :=
  ⟨(c3_reschedule_errors 10 [⟨1, 5, 900, 1, 1⟩] 2 960).1 (by decide),
   (c3_reschedule_errors 10 [⟨1, 5, 900, 1, 1⟩] 1 960).2 ⟨1, 5, 900, 1, 1⟩
     (by decide) (by decide)⟩

/-- Claim C6: `create_lesson` with a date strictly before today always fails
with the past-date error, returns no lesson, and leaves the table unchanged
(the conflict check is never consulted: the result is fixed by the date test
alone). -/
theorem c6_create_past (today : Nat) (lessons : List Lesson) (tid sid d t : Nat)
    (hd : d < today) :
    create_lesson today lessons tid sid d t =
      ((false, "Cannot schedule a lesson for a past date", none), lessons) := by
  unfold create_lesson
  rw [if_pos hd]

/-- Witness for C6 at a concrete past date. -/
theorem c6_create_past_witness :
    create_lesson 10 [⟨1, 10, 900, 1, 1⟩] 1 2 9 900 =
      ((false, "Cannot schedule a lesson for a past date", none), [⟨1, 10, 900, 1, 1⟩]) :=
  c6_create_past 10 [⟨1, 10, 900, 1, 1⟩] 1 2 9 900 (by decide)

/-- Claim C10: passing `exclude_lesson_id = 0` behaves exactly like passing no
exclusion at all, because Python's `if exclude_lesson_id:` treats `0` as
falsy; so a lesson with id `0` would not be excluded even when explicitly
passed as the exclusion id. -/
theorem c10_exclude_zero (lessons : List Lesson) (tid sid d t : Nat) :
    check_time_conflict lessons tid sid d t (some 0) =
      check_time_conflict lessons tid sid d t none := rfl

/-- Claim C4: self-exclusion. Under the primary-key facts and the
slot-uniqueness invariant, rescheduling an existing lesson whose date is today
or later to its own current time succeeds (and leaves the table unchanged):
the lesson's own row, excluded via `exclude_lesson_id`, never conflicts with
itself. -/
theorem c4_reschedule_self (today : Nat) (s : List Lesson) (L : Lesson)
    (hwf : wellFormed s) (hsu : slotUnique s) (hmem : L ∈ s) (hd : today ≤ L.date) :
    reschedule_lesson today s L.id L.time = ((true, "Lesson rescheduled successfully"), s) := by
  have hfind : find_lesson s L.id = some L := find_lesson_of_mem hwf.1 hmem
  have hlid0 : L.id ≠ 0 := by
    have := hwf.2 L hmem
    omega
  have hchk : (check_time_conflict s L.teacher_id L.student_id L.date L.time (some L.id)).1
      = true := by
    rw [check_fst_true_iff]
    constructor
    · intro m hm hs
      by_cases hmf : teacherFilter L.teacher_id L.date L.time m = true
      · obtain ⟨e1, e2, e3⟩ := teacherFilter_true_iff.1 hmf
        have hmne : m.id ≠ L.id := by
          intro he
          rw [survivesEx, if_pos (by simp [optTruthy, hlid0])] at hs
          simp [excludeId, he] at hs
        have hmL : m ≠ L := fun he => hmne (congrArg Lesson.id he)
        have hns := List.Pairwise.forall (fun {a b} => noShare_symm) hsu hm hmem hmL
        exact absurd ⟨e1, e2, e3⟩ hns.1
      · exact bool_eq_false hmf
    · intro m hm hs
      by_cases hmf : studentFilter L.student_id L.date L.time m = true
      · obtain ⟨e1, e2, e3⟩ := studentFilter_true_iff.1 hmf
        have hmne : m.id ≠ L.id := by
          intro he
          rw [survivesEx, if_pos (by simp [optTruthy, hlid0])] at hs
          simp [excludeId, he] at hs
        have hmL : m ≠ L := fun he => hmne (congrArg Lesson.id he)
        have hns := List.Pairwise.forall (fun {a b} => noShare_symm) hsu hm hmem hmL
        exact absurd ⟨e1, e2, e3⟩ hns.2
      · exact bool_eq_false hmf
  obtain ⟨pre, post, hs', hpre, hLid, hupd, _⟩ := find_decomp hfind L.time
  rw [setTime_self] at hupd
  rw [reschedule_eq_of_find_some today L.time hfind, if_neg (by omega), if_pos hchk,
    hupd, ← hs']

/-- Witness for C4 at a concrete table. -/
theorem c4_reschedule_self_witness :
    reschedule_lesson 5 [⟨1, 6, 900, 1, 1⟩, ⟨2, 6, 960, 1, 1⟩] 2 960 =
      ((true, "Lesson rescheduled successfully"), [⟨1, 6, 900, 1, 1⟩, ⟨2, 6, 960, 1, 1⟩]) :=
  c4_reschedule_self 5 [⟨1, 6, 900, 1, 1⟩, ⟨2, 6, 960, 1, 1⟩] ⟨2, 6, 960, 1, 1⟩
    (by decide) (by decide) (by decide) (by decide)

/-- Claim C5: frame condition of a successful reschedule. The table splits as
`pre ++ L :: post` around the affected lesson `L` (the first row with the id);
afterwards the table is `pre ++ setTime L nt :: post`, so `L`'s id,
teacher_id, student_id and date are unchanged, its time equals the new time,
and every other lesson is unchanged. -/
theorem c5_reschedule_frame (today : Nat) (s : List Lesson) (lid nt : Nat)
    (hok : (reschedule_lesson today s lid nt).1.1 = true) :
    ∃ pre L post,
      s = pre ++ L :: post ∧ L.id = lid ∧
      (reschedule_lesson today s lid nt).2 = pre ++ setTime L nt :: post ∧
      (setTime L nt).id = L.id ∧ (setTime L nt).teacher_id = L.teacher_id ∧
      (setTime L nt).student_id = L.student_id ∧ (setTime L nt).date = L.date ∧
      (setTime L nt).time = nt := by
  cases hf : find_lesson s lid with
  | none =>
    unfold reschedule_lesson at hok
    rw [hf] at hok
    simp at hok
  | some L =>
    rw [reschedule_eq_of_find_some today nt hf] at hok ⊢
    by_cases hd : L.date < today
    · rw [if_pos hd] at hok
      simp at hok
    · rw [if_neg hd] at hok ⊢
      by_cases hv :
          (check_time_conflict s L.teacher_id L.student_id L.date nt (some lid)).1 = true
      · obtain ⟨pre, post, hs, hpre, hLid, hupd, _⟩ := find_decomp hf nt
        rw [if_pos hv]
        refine ⟨pre, L, post, hs, hLid, ?_, rfl, rfl, rfl, rfl, rfl⟩
        simpa using hupd
      · rw [if_neg hv] at hok
        simp at hok

/-- Witness for C5 at a concrete successful reschedule. -/
theorem c5_reschedule_frame_witness :
    (reschedule_lesson 0 [⟨1, 5, 900, 1, 1⟩] 1 960).1.1 = true ∧
    ∃ pre L post,
      [(⟨1, 5, 900, 1, 1⟩ : Lesson)] = pre ++ L :: post ∧ L.id = 1 ∧
      (reschedule_lesson 0 [⟨1, 5, 900, 1, 1⟩] 1 960).2 = pre ++ setTime L 960 :: post ∧
      (setTime L 960).id = L.id ∧ (setTime L 960).teacher_id = L.teacher_id ∧
      (setTime L 960).student_id = L.student_id ∧ (setTime L 960).date = L.date ∧
      (setTime L 960).time = 960 :=
  ⟨by decide, c5_reschedule_frame 0 [⟨1, 5, 900, 1, 1⟩] 1 960 (by decide)⟩

/-- Claim C7: cancellation is not idempotent. When some lesson carries the id
(under the primary-key facts), the first `cancel_lesson` succeeds and returns
that lesson as snapshot, afterwards no row with the id remains, and a second
`cancel_lesson` on the same id fails with the not-found error and leaves the
table unchanged. -/
theorem c7_cancel_twice (s : List Lesson) (lid : Nat)
    (hwf : wellFormed s) (hex : ∃ L ∈ s, L.id = lid) :
    (cancel_lesson s lid).1.1 = true ∧
    (∃ L ∈ s, L.id = lid ∧ (cancel_lesson s lid).1.2.2 = some L) ∧
    (∀ M ∈ (cancel_lesson s lid).2, M.id ≠ lid) ∧
    cancel_lesson (cancel_lesson s lid).2 lid =
      ((false, "Lesson not found", none), (cancel_lesson s lid).2) := by
  obtain ⟨L0, hL0mem, hL0id⟩ := hex
  have hfind : find_lesson s lid = some L0 := by
    rw [← hL0id]
    exact find_lesson_of_mem hwf.1 hL0mem
  have hcl : cancel_lesson s lid = ((true, "Lesson cancelled", some L0), eraseFirst s lid) := by
    unfold cancel_lesson
    rw [hfind]
  have hgone : ∀ M ∈ eraseFirst s lid, M.id ≠ lid := eraseFirst_no_id hwf.1
  have hfind2 : find_lesson (eraseFirst s lid) lid = none := by
    unfold find_lesson
    rw [List.find?_eq_none]
    intro M hM
    simp [hgone M hM]
  refine ⟨by rw [hcl], ⟨L0, hL0mem, hL0id, by rw [hcl]⟩, by rw [hcl]; exact hgone, ?_⟩
  rw [hcl]
  unfold cancel_lesson
  rw [hfind2]

/-- Witness for C7 at a concrete table. -/
theorem c7_cancel_twice_witness :
    (cancel_lesson [⟨1, 5, 900, 1, 1⟩] 1).1.1 = true ∧
    (∃ L ∈ [(⟨1, 5, 900, 1, 1⟩ : Lesson)], L.id = 1 ∧
      (cancel_lesson [⟨1, 5, 900, 1, 1⟩] 1).1.2.2 = some L) ∧
    (∀ M ∈ (cancel_lesson [⟨1, 5, 900, 1, 1⟩] 1).2, M.id ≠ 1) ∧
    cancel_lesson (cancel_lesson [⟨1, 5, 900, 1, 1⟩] 1).2 1 =
      ((false, "Lesson not found", none), (cancel_lesson [⟨1, 5, 900, 1, 1⟩] 1).2) :=
  c7_cancel_twice [⟨1, 5, 900, 1, 1⟩] 1 (by decide) (by decide)

/-- Claim C8, evaluated at the failing input. `cancel_lesson` deletes the row
and "succeeds", but the object it hands back (`lesson_copy = lesson` is an
alias, not a copy) is the same ORM instance, expunged and detached by the
commit of the deletion; its `student`/`teacher` relationships were never
loaded by the `filter_by(id=...)` query, so the caller
`confirm_cancel_lesson`'s `lesson.student` access raises
`DetachedInstanceError` instead of exposing the counterpart's details. -/
theorem c8_cancel_snapshot_detached :
    (cancel_lesson_orm [⟨1, 100, 900, 1, 1⟩] 1).1.1 = true ∧
    (cancel_lesson_orm [⟨1, 100, 900, 1, 1⟩] 1).2 = [] ∧
    confirm_cancel_student_access [⟨1, 100, 900, 1, 1⟩] 1 =
      Except.error "DetachedInstanceError" :=
  ⟨rfl, rfl, rfl⟩

/-- Counterexample to claim C9 as stated: on a concrete declined negotiation
the lesson is unchanged and a decline notification is delivered, but its text
is the fixed decline message, which does not contain the lesson's original
time (15:00): the notification does not reference the original time. -/
theorem c9_decline_counterexample :
    (decline_reschedule [⟨1, 100, 900, 7, 3⟩] 1 ⟨3, "Alice", 7, some 456⟩
        ⟨7, "John", 123⟩).2 = [⟨1, 100, 900, 7, 3⟩] ∧
    (decline_reschedule [⟨1, 100, 900, 7, 3⟩] 1 ⟨3, "Alice", 7, some 456⟩
        ⟨7, "John", 123⟩).1 =
      some (true, some "Your request to reschedule the lesson with John was declined.") ∧
    formatTimeHM (⟨1, 100, 900, 7, 3⟩ : Lesson).time = "15:00" ∧
    containsSub "Your request to reschedule the lesson with John was declined." "15:00"
      = false := by
  refine ⟨rfl, rfl, rfl, ?_⟩
  decide

/-- Claim C9 as amended: when the organizer declines, the handler leaves the
table (hence the lesson's time and every other field) unchanged and the
counterpart receives the fixed decline notification naming the teacher; the
lesson's original stored time is what is passed to the notifier, but the
decline text itself does not include a time. -/
theorem c9_decline_amended (lessons : List Lesson) (lid : Nat)
    (st : Student) (te : Teacher) (L : Lesson)
    (hf : find_lesson lessons lid = some L)
    (htg : optTruthy st.telegram_id = true) :
    decline_reschedule lessons lid st te =
      (some (true, some ("Your request to reschedule the lesson with "
        ++ te.name ++ " was declined.")), lessons) := by
  unfold decline_reschedule
  rw [hf]
  unfold notify_student_reschedule_result
  rw [htg]
  simp [rescheduleResultText]

/-- Witness for the amended C9 at a concrete declined negotiation. -/
theorem c9_decline_amended_witness :
    decline_reschedule [⟨1, 100, 900, 7, 3⟩] 1 ⟨3, "Alice", 7, some 456⟩ ⟨7, "John", 123⟩ =
      (some (true, some ("Your request to reschedule the lesson with "
        ++ "John" ++ " was declined.")), [⟨1, 100, 900, 7, 3⟩]) :=
  c9_decline_amended [⟨1, 100, 900, 7, 3⟩] 1 ⟨3, "Alice", 7, some 456⟩ ⟨7, "John", 123⟩
    ⟨1, 100, 900, 7, 3⟩ (by decide) (by decide)

end Claims

end TeacherScheduler
